import Mathlib

/-!
Verification development for the Solana/SAID tool module
(`nanobot/agent/tools/solana.py`).

The module is a collection of six stateless request/response adapters.
Each tool's `execute` performs one outbound HTTP request (or one local
file scan) and returns a string: either `json.dumps` of a constructed
mapping, or a raw upstream body passed through unchanged.

Shallow embedding choices:
* `Json` models Python values produced by `json.loads` (and consumed by
  `json.dumps`); numbers are carried as exact rationals.
* `ToolOutput` models the returned string at the point of construction:
  `ToolOutput.dumps j` stands for `return json.dumps(j)` and
  `ToolOutput.raw s` for returning the string `s` itself.  `json.dumps`
  of a `Json` value is a well-formed JSON document by construction, so
  claims about well-formed JSON results are claims about this type.
* The outcome of the network call, body read/decode and `json.loads` is
  an explicit input to each embedded `execute` (`ParsedNet` for tools
  that parse the body, `RawNet` for tools that use the body text).
  Python exceptions inside the `try` block are modelled with
  `Except String`, where the string is Python's `str(e)`; each `execute`
  is a total Lean function into `ToolOutput`, which models that no
  exception crosses the tool boundary.
* Python's `/` on numbers produces an IEEE-754 binary64 float.  CPython
  computes `int / int` as the correctly rounded (round to nearest, ties
  to even) true quotient, raising OverflowError above the float range.
  `divRound53` models this rounding at 53 significant bits with
  unbounded exponent below the overflow threshold (the normal binary64
  range; subnormal underflow does not arise for integer lamport counts).
-/

/-- Python value produced by `json.loads` / consumed by `json.dumps`.
Numbers are exact rationals (Python int and float are conflated; no
claim below depends on the distinction). -/
inductive Json where
  | null : Json
  | bool (b : Bool) : Json
  | num (q : ℚ) : Json
  | str (s : String) : Json
  | arr (xs : List Json) : Json
  | obj (fields : List (String × Json)) : Json

/-- Result string of a tool `execute`: either `json.dumps` of a value,
or a raw string returned unchanged. -/
inductive ToolOutput where
  | dumps (j : Json) : ToolOutput
  | raw (s : String) : ToolOutput

/-- Lookup in a Python dict modelled as an association list; later
bindings shadow earlier ones, as in a dict built by `json.loads`. -/
def jsonGet (fields : List (String × Json)) (k : String) : Option Json :=
  fields.foldl (fun acc p => if p.1 = k then some p.2 else acc) none

/-- Whether `small` occurs as a prefixed segment of `big` (helper for
Python substring membership). -/
def charsLead : List Char → List Char → Bool
  | [], _ => true
  | _ :: _, [] => false
  | a :: as, b :: bs => a == b && charsLead as bs

/-- Python substring test `needle in hay` on strings. -/
def strHasSub (hay needle : String) : Bool :=
  go hay.toList needle.toList
where
  go : List Char → List Char → Bool
    | _, [] => true
    | [], _ :: _ => false
    | h :: t, n => charsLead n (h :: t) || go t n

/-- Python membership test `k in j`: key lookup on dicts, element
equality on lists, substring on strings; TypeError otherwise.  The
error string is Python's `str(e)`. -/
def pyContains (j : Json) (k : String) : Except String Bool :=
  match j with
  | .obj fields => .ok (jsonGet fields k).isSome
  | .arr xs => .ok (xs.any fun x => match x with | .str s => s == k | _ => false)
  | .str s => .ok (strHasSub s k)
  | .null => .error "argument of type \x27NoneType\x27 is not iterable"
  | .bool _ => .error "argument of type \x27bool\x27 is not iterable"
  | .num _ => .error "argument of type \x27int\x27 is not iterable"

/-- Python `j[k]` with a string key: dict lookup (KeyError when the key
is missing), TypeError on any non-dict. -/
def pySubscript (j : Json) (k : String) : Except String Json :=
  match j with
  | .obj fields =>
      match jsonGet fields k with
      | some v => .ok v
      | none => .error ("\x27" ++ k ++ "\x27")
  | .arr _ => .error "list indices must be integers or slices, not str"
  | .str _ => .error "string indices must be integers"
  | .null => .error "\x27NoneType\x27 object is not subscriptable"
  | .bool _ => .error "\x27bool\x27 object is not subscriptable"
  | .num _ => .error "\x27int\x27 object is not subscriptable"

/-- Python `j.get(k, default)`: defaulting lookup on dicts,
AttributeError on any non-dict. -/
def pyDictGet (j : Json) (k : String) (default : Json) : Except String Json :=
  match j with
  | .obj fields => .ok ((jsonGet fields k).getD default)
  | .arr _ => .error "\x27list\x27 object has no attribute \x27get\x27"
  | .str _ => .error "\x27str\x27 object has no attribute \x27get\x27"
  | .null => .error "\x27NoneType\x27 object has no attribute \x27get\x27"
  | .bool _ => .error "\x27bool\x27 object has no attribute \x27get\x27"
  | .num _ => .error "\x27int\x27 object has no attribute \x27get\x27"

/-- Floor of log2 by fuel recursion (structural, so the kernel can
evaluate it); correct for arguments below 2 ^ fuel. -/
def log2fuel : ℕ → ℕ → ℕ
  | 0, _ => 0
  | fuel+1, n => if n ≤ 1 then 0 else log2fuel fuel (n / 2) + 1

/-- Mantissa and exponent of the quotient n / d rounded to nearest,
ties to even, at 53 significant bits: the rounded value is m * 2 ^ e.
All arithmetic is on natural numbers so the kernel can evaluate it. -/
def mantissaExp (n d : ℕ) : ℕ × ℤ :=
  if n = 0 ∨ d = 0 then (0, 0) else
  let a := log2fuel 4096 n
  let b := log2fuel 4096 d
  let k : ℤ := if d * 2^a ≤ n * 2^b then (a : ℤ) - b else (a : ℤ) - b - 1
  let e : ℤ := k - 52
  let bigN := if 0 ≤ e then n else n * 2^(-e).toNat
  let bigD := if 0 ≤ e then d * 2^e.toNat else d
  let q0 := bigN / bigD
  let r := bigN % bigD
  let m := if 2*r < bigD then q0
           else if bigD < 2*r then q0 + 1
           else if q0 % 2 = 0 then q0 else q0 + 1
  (m, e)

/-- Power of two with integer exponent, as a rational. -/
def pow2z (e : ℤ) : ℚ :=
  if 0 ≤ e then ((2^e.toNat : ℕ) : ℚ) else 1 / ((2^(-e).toNat : ℕ) : ℚ)

/-- Correctly rounded (nearest, ties to even, 53-bit) value of n / d,
as an exact rational: the value CPython produces for `n / d` on
integers whenever the result is in the normal binary64 range. -/
def divRound53 (n d : ℕ) : ℚ :=
  let p := mantissaExp n d
  (p.1 : ℚ) * pow2z p.2

/-- Conversion applied by the balance tool: the binary64 value of
`lamports / 1_000_000_000`. -/
def lamportsToSol (lamports : ℕ) : ℚ := divRound53 lamports 1000000000

/-- Python `j / 1_000_000_000` on a JSON value: float true division on
numbers (and bools, which are ints in Python), TypeError otherwise,
OverflowError above the binary64 range. -/
def pyDivBillion (j : Json) : Except String ℚ :=
  match j with
  | .num q =>
      let r0 := divRound53 q.num.natAbs (q.den * 1000000000)
      let r := if q < 0 then -r0 else r0
      if |r| < 2^1024 then .ok r
      else .error "integer division result too large for a float"
  | .bool b => .ok (if b then divRound53 1 1000000000 else 0)
  | .null => .error "unsupported operand type(s) for /: \x27NoneType\x27 and \x27int\x27"
  | .str _ => .error "unsupported operand type(s) for /: \x27str\x27 and \x27int\x27"
  | .arr _ => .error "unsupported operand type(s) for /: \x27list\x27 and \x27int\x27"
  | .obj _ => .error "unsupported operand type(s) for /: \x27dict\x27 and \x27int\x27"

/-- Outcome of `urllib.request.urlopen` plus `resp.read().decode()` and
`json.loads`, as observed by tools that parse the response body. -/
inductive ParsedNet where
  | ok (data : Json) : ParsedNet
  | badBody (msg : String) : ParsedNet
  | httpError (code : ℕ) (msg : String) : ParsedNet
  | exn (msg : String) : ParsedNet

/-- Outcome of `urllib.request.urlopen` plus `resp.read().decode()`, as
observed by tools that use the raw body text. -/
inductive RawNet where
  | ok (body : String) : RawNet
  | httpError (code : ℕ) (msg : String) : RawNet
  | exn (msg : String) : RawNet

/-- Base URL of the SAID registry. -/
def SAID_API : String := "https://api.saidprotocol.com"

/-- Body of the `with`-block of `GetBalanceTool.execute` once the
response has been read and parsed into `data`; an `Except` error is a
Python exception propagating to the `except Exception` handler. -/
def balanceBody (address : String) (data : Json) : Except String ToolOutput := do
  let hasResult ← pyContains data "result"
  if hasResult then
    let result ← pySubscript data "result"
    let lamports ← pySubscript result "value"
    let sol ← pyDivBillion lamports
    pure (.dumps (.obj [("address", .str address), ("balance_sol", .num sol),
                        ("balance_lamports", lamports)]))
  else
    let e ← pyDictGet data "error" (.str "Unknown error")
    pure (.dumps (.obj [("error", e)]))

/-- Embedding of `GetBalanceTool.execute`.  The tool has no HTTPError
handler, so an HTTP error status is caught by `except Exception` like
any other fault. -/
def GetBalanceTool.execute (address : String) (net : ParsedNet) : ToolOutput :=
  match net with
  | .ok data =>
      match balanceBody address data with
      | .ok out => out
      | .error m => .dumps (.obj [("error", .str m)])
  | .badBody m | .httpError _ m | .exn m => .dumps (.obj [("error", .str m)])

/-- Body of the `with`-block of `VerifyAgentTool.execute` once the
response has been parsed into `agent`. -/
def verifyBody (wallet : String) (agent : Json) : Except String ToolOutput := do
  let n ← pyDictGet agent "name" .null
  let w ← pyDictGet agent "wallet" .null
  let p ← pyDictGet agent "pda" .null
  let iv ← pyDictGet agent "isVerified" .null
  let rs ← pyDictGet agent "reputationScore" .null
  let d ← pyDictGet agent "description" .null
  pure (.dumps (.obj [("verified", .bool true), ("name", n), ("wallet", w),
                      ("pda", p), ("isVerified", iv), ("reputationScore", rs),
                      ("description", d),
                      ("profile", .str ("https://www.saidprotocol.com/agent.html?wallet=" ++ wallet))]))

/-- Embedding of `VerifyAgentTool.execute`: HTTPError with code 404 is
mapped to a fixed not-found record; every other fault to a generic
verified-false record. -/
def VerifyAgentTool.execute (wallet : String) (net : ParsedNet) : ToolOutput :=
  match net with
  | .ok agent =>
      match verifyBody wallet agent with
      | .ok out => out
      | .error m => .dumps (.obj [("verified", .bool false), ("error", .str m)])
  | .badBody m => .dumps (.obj [("verified", .bool false), ("error", .str m)])
  | .httpError code m =>
      if code = 404 then
        .dumps (.obj [("verified", .bool false),
                      ("error", .str "Agent not found in SAID registry")])
      else .dumps (.obj [("verified", .bool false), ("error", .str m)])
  | .exn m => .dumps (.obj [("verified", .bool false), ("error", .str m)])

/-- Embedding of `LookupAgentTool.execute`: the successful body is
returned as-is; 404 maps to a fixed error record. -/
def LookupAgentTool.execute (_wallet : String) (net : RawNet) : ToolOutput :=
  match net with
  | .ok body => .raw body
  | .httpError code m =>
      if code = 404 then .dumps (.obj [("error", .str "Agent not found")])
      else .dumps (.obj [("error", .str m)])
  | .exn m => .dumps (.obj [("error", .str m)])

/-- Embedding of `GetTrustScoreTool.execute`: the successful body is
returned as-is; there is no HTTPError handler, so every fault, 404
included, is caught by `except Exception`. -/
def GetTrustScoreTool.execute (_wallet : String) (net : RawNet) : ToolOutput :=
  match net with
  | .ok body => .raw body
  | .httpError _ m => .dumps (.obj [("error", .str m)])
  | .exn m => .dumps (.obj [("error", .str m)])

/-- Outgoing POST payload of `RegisterAgentTool.execute`; the Python
expression `description or f"..."` falls back exactly when the
description string is empty (the only falsy string).  The `description`
parameter defaults to the empty string when absent. -/
def RegisterAgentTool.payload (wallet name description : String) : Json :=
  .obj [("wallet", .str wallet), ("name", .str name),
        ("description", .str (if description = "" then name ++ " - AI Agent" else description))]

/-- Body of the `with`-block of `RegisterAgentTool.execute` once the
response has been parsed into `result`. -/
def registerBody (result : Json) : Except String ToolOutput := do
  let w ← pyDictGet result "wallet" .null
  let p ← pyDictGet result "pda" .null
  let pr ← pyDictGet result "profile" .null
  pure (.dumps (.obj [("success", .bool true), ("wallet", w), ("pda", p),
                      ("profile", pr), ("status", .str "PENDING")]))

/-- Embedding of `RegisterAgentTool.execute`; only `except Exception`
exists, so HTTP error statuses are caught generically. -/
def RegisterAgentTool.execute (net : ParsedNet) : ToolOutput :=
  match net with
  | .ok result =>
      match registerBody result with
      | .ok out => out
      | .error m => .dumps (.obj [("success", .bool false), ("error", .str m)])
  | .badBody m | .httpError _ m | .exn m =>
      .dumps (.obj [("success", .bool false), ("error", .str m)])

/-- Filesystem as observed by `GetMyIdentityTool.execute`:
`pathExists p` models `Path(p).exists()`, and `openRead p` is `some`
content when `open(p)` plus `f.read()` succeeds, `none` when it
raises. -/
structure FsState where
  pathExists : String → Bool
  openRead : String → Option String

/-- Candidate identity-file paths, in the order the source lists
them. -/
def identityPaths (workspace home : String) : List String :=
  [workspace ++ "/said.json",
   home ++ "/.nanobot/said.json",
   home ++ "/.config/said/identity.json"]

/-- Error record returned when no identity file can be read. -/
def identityNotFound : ToolOutput :=
  .dumps (.obj [("error", .str "SAID identity not found. Register first with register_said_agent.")])

/-- Loop of `GetMyIdentityTool.execute`: for each path, test existence,
then try to open and read it; a raised open error is swallowed and the
scan continues. -/
def scanPaths (fs : FsState) : List String → ToolOutput
  | [] => identityNotFound
  | p :: rest =>
      if fs.pathExists p then
        match fs.openRead p with
        | some content => .raw content
        | none => scanPaths fs rest
      else scanPaths fs rest

/-- Embedding of `GetMyIdentityTool.execute`. -/
def GetMyIdentityTool.execute (workspace home : String) (fs : FsState) : ToolOutput :=
  scanPaths fs (identityPaths workspace home)

/-- Spec-side description of the scan (section 4.6 of the spec): the
raw content of the first candidate that exists and opens successfully,
if any. -/
def firstReadable (fs : FsState) : List String → Option String
  | [] => none
  | p :: rest =>
      if fs.pathExists p ∧ (fs.openRead p).isSome then fs.openRead p
      else firstReadable fs rest

/-- Whether a tool output is `json.dumps` of an object carrying an
`error` field. -/
def hasErrorField : ToolOutput → Bool
  | .dumps (.obj fields) => (jsonGet fields "error").isSome
  | _ => false

/-- Key list of a dumped JSON object, when the output is one. -/
def dumpedKeys : ToolOutput → Option (List String)
  | .dumps (.obj fields) => some (fields.map (fun p => p.1))
  | _ => none

/-- Filesystem with no existing candidate file. -/
def fsEmpty : FsState := ⟨fun _ => false, fun _ => none⟩

theorem except_ok_bind {α β : Type} (a : α) (f : α → Except String β) :
    (Except.ok a >>= f) = f a := rfl

theorem except_error_bind {α β : Type} (e : String) (f : α → Except String β) :
    ((Except.error e : Except String α) >>= f) = Except.error e := rfl

theorem divRound53_nonneg (n d : ℕ) : 0 ≤ divRound53 n d := by
  simp only [divRound53, pow2z]
  split <;> positivity

theorem lamportsToSol_example : lamportsToSol 1500000000 = 3/2 := by
  have h : mantissaExp 1500000000 1000000000 = (6755399441055744, -52) := by decide
  have h2 : Int.toNat 52 = 52 := rfl
  rw [lamportsToSol, divRound53, h, pow2z]
  norm_num [h2]

theorem pyDivBillion_nat (L : ℕ) (h : lamportsToSol L < 2^1024) :
    pyDivBillion (.num (L : ℚ)) = .ok (lamportsToSol L) := by
  have hnum : ((L : ℚ)).num.natAbs = L := by
    rw [Rat.num_natCast, Int.natAbs_ofNat]
  have hden : ((L : ℚ)).den = 1 := Rat.den_natCast L
  have hneg : ¬ ((L : ℚ) < 0) := not_lt.mpr (Nat.cast_nonneg L)
  rw [pyDivBillion]
  simp only [hnum, hden, one_mul, if_neg hneg]
  rw [if_pos]
  · rfl
  · rw [abs_of_nonneg (divRound53_nonneg L 1000000000)]
    exact h

theorem scanPaths_eq_firstReadable (fs : FsState) (ps : List String) :
    scanPaths fs ps = (match firstReadable fs ps with
      | some c => ToolOutput.raw c
      | none => identityNotFound) := by
  induction ps with
  | nil => rfl
  | cons p rest ih =>
      rw [scanPaths, firstReadable]
      cases h1 : fs.pathExists p with
      | false => simp [h1, ih]
      | true =>
          cases h2 : fs.openRead p with
          | none => simp [h1, h2, ih]
          | some c => simp [h1, h2]

theorem firstReadable_eq_none (fs : FsState) (ps : List String)
    (h : ∀ p ∈ ps, fs.pathExists p = false ∨ fs.openRead p = none) :
    firstReadable fs ps = none := by
  induction ps with
  | nil => rfl
  | cons p rest ih =>
      rw [firstReadable]
      rcases h p (by simp) with h1 | h1 <;>
        simp [h1, ih (fun q hq => h q (by simp [hq]))]

/-- C1: for every tool and every failure (transport fault, timeout,
HTTP error status, malformed JSON body, or no readable identity file),
the returned string is json.dumps of an object carrying an error field;
the embedded execute functions are total into ToolOutput, which models
that no exception crosses the tool boundary. -/
theorem solana_C1_error_invariant (a w ws home m : String) (code : ℕ) (fs : FsState) :
    (hasErrorField (GetBalanceTool.execute a (.badBody m)) = true
      ∧ hasErrorField (GetBalanceTool.execute a (.httpError code m)) = true
      ∧ hasErrorField (GetBalanceTool.execute a (.exn m)) = true
      ∧ hasErrorField (VerifyAgentTool.execute w (.badBody m)) = true
      ∧ hasErrorField (VerifyAgentTool.execute w (.httpError code m)) = true
      ∧ hasErrorField (VerifyAgentTool.execute w (.exn m)) = true
      ∧ hasErrorField (LookupAgentTool.execute w (.httpError code m)) = true
      ∧ hasErrorField (LookupAgentTool.execute w (.exn m)) = true
      ∧ hasErrorField (GetTrustScoreTool.execute w (.httpError code m)) = true
      ∧ hasErrorField (GetTrustScoreTool.execute w (.exn m)) = true
      ∧ hasErrorField (RegisterAgentTool.execute (.badBody m)) = true
      ∧ hasErrorField (RegisterAgentTool.execute (.httpError code m)) = true
      ∧ hasErrorField (RegisterAgentTool.execute (.exn m)) = true)
    ∧ ((∀ p ∈ identityPaths ws home, fs.pathExists p = false ∨ fs.openRead p = none) →
        hasErrorField (GetMyIdentityTool.execute ws home fs) = true) := by
  constructor
  · refine ⟨rfl, rfl, rfl, rfl, ?_, rfl, ?_, rfl, rfl, rfl, rfl, rfl, rfl⟩
    · rcases eq_or_ne code 404 with h | h <;>
        simp [VerifyAgentTool.execute, h, hasErrorField, jsonGet]
    · rcases eq_or_ne code 404 with h | h <;>
        simp [LookupAgentTool.execute, h, hasErrorField, jsonGet]
  · intro h
    rw [GetMyIdentityTool.execute, scanPaths_eq_firstReadable,
        firstReadable_eq_none fs _ h]
    rfl

/-- C1 witness: with no readable candidate file, the identity tool
still reports an error record. -/
theorem solana_C1_witness :
    hasErrorField (GetMyIdentityTool.execute "ws" "home" fsEmpty) = true :=
  (solana_C1_error_invariant "a" "w" "ws" "home" "m" 500 fsEmpty).2
    (fun _ _ => Or.inl rfl)

/-- C3: an HTTP 404 on verification yields the fixed not-found record
whatever the response carries; any other HTTP error or transport fault
yields a verified-false record with the fault message. -/
theorem solana_C3_verify_http_faults (w m : String) (code : ℕ) :
    VerifyAgentTool.execute w (.httpError 404 m)
      = .dumps (.obj [("verified", .bool false),
                      ("error", .str "Agent not found in SAID registry")])
    ∧ (code ≠ 404 → VerifyAgentTool.execute w (.httpError code m)
        = .dumps (.obj [("verified", .bool false), ("error", .str m)]))
    ∧ VerifyAgentTool.execute w (.exn m)
      = .dumps (.obj [("verified", .bool false), ("error", .str m)]) := by
  refine ⟨rfl, ?_, rfl⟩
  intro h
  simp [VerifyAgentTool.execute, h]

/-- C3 witness: instance at HTTP status 500. -/
theorem solana_C3_witness :
    VerifyAgentTool.execute "w" (.httpError 500 "HTTP Error 500: Internal Server Error")
      = .dumps (.obj [("verified", .bool false),
                      ("error", .str "HTTP Error 500: Internal Server Error")]) :=
  (solana_C3_verify_http_faults "w" "HTTP Error 500: Internal Server Error" 500).2.1
    (by decide)

/-- C4: an absent (defaulted) or empty description makes the outgoing
registration payload carry name followed by the AI-Agent suffix, as in
the Bot1 example; a non-empty description is carried unchanged. -/
theorem solana_C4_register_description (w n d : String) :
    RegisterAgentTool.payload w n ""
      = .obj [("wallet", .str w), ("name", .str n),
              ("description", .str (n ++ " - AI Agent"))]
    ∧ (d ≠ "" → RegisterAgentTool.payload w n d
        = .obj [("wallet", .str w), ("name", .str n), ("description", .str d)])
    ∧ RegisterAgentTool.payload "W" "Bot1" ""
      = .obj [("wallet", .str "W"), ("name", .str "Bot1"),
              ("description", .str "Bot1 - AI Agent")] := by
  refine ⟨rfl, ?_, rfl⟩
  intro h
  simp [RegisterAgentTool.payload, h]

/-- C4 witness: a non-empty description is carried unchanged. -/
theorem solana_C4_witness :
    RegisterAgentTool.payload "w" "n" "my agent"
      = .obj [("wallet", .str "w"), ("name", .str "n"),
              ("description", .str "my agent")] :=
  (solana_C4_register_description "w" "n" "my agent").2.1 (by decide)

/-- C5: the identity tool scans exactly the three candidate paths in
the fixed workspace, then home .nanobot, then home .config order,
returns the raw content of the first candidate that exists and opens
(silently skipping one that exists but fails to open), and otherwise
returns the fixed not-found error record. -/
theorem solana_C5_identity_scan (ws home : String) (fs : FsState) :
    identityPaths ws home
      = [ws ++ "/said.json", home ++ "/.nanobot/said.json",
         home ++ "/.config/said/identity.json"]
    ∧ GetMyIdentityTool.execute ws home fs
      = (match firstReadable fs (identityPaths ws home) with
         | some c => ToolOutput.raw c
         | none => identityNotFound) :=
  ⟨rfl, scanPaths_eq_firstReadable fs _⟩

/-- C8: on a 200 response whose body parses as a JSON object, the
verification tool reports verified true regardless of the content, and
each of the six copied fields falls back to null when missing. -/
theorem solana_C8_verify_success_defaults (w : String) (fields : List (String × Json)) :
    VerifyAgentTool.execute w (.ok (.obj fields))
      = .dumps (.obj [("verified", .bool true),
          ("name", (jsonGet fields "name").getD .null),
          ("wallet", (jsonGet fields "wallet").getD .null),
          ("pda", (jsonGet fields "pda").getD .null),
          ("isVerified", (jsonGet fields "isVerified").getD .null),
          ("reputationScore", (jsonGet fields "reputationScore").getD .null),
          ("description", (jsonGet fields "description").getD .null),
          ("profile", .str ("https://www.saidprotocol.com/agent.html?wallet=" ++ w))]) := rfl

/-- C10: on a response that parses as a JSON object, registration
reports success true and literal status PENDING unconditionally, reads
only wallet, pda and profile (null when missing), and ignores any
upstream status or success field. -/
theorem solana_C10_register_response (fields : List (String × Json)) (s b : Json) :
    RegisterAgentTool.execute (.ok (.obj fields))
      = .dumps (.obj [("success", .bool true),
          ("wallet", (jsonGet fields "wallet").getD .null),
          ("pda", (jsonGet fields "pda").getD .null),
          ("profile", (jsonGet fields "profile").getD .null),
          ("status", .str "PENDING")])
    ∧ RegisterAgentTool.execute (.ok (.obj (("status", s) :: ("success", b) :: fields)))
      = RegisterAgentTool.execute (.ok (.obj fields)) :=
  ⟨rfl, rfl⟩

/-- C2 counterexample: on a successful response with lamport count 1,
the returned SOL value is the binary64 rounding of 10 ^ -9, which is
not exactly 1 / 1_000_000_000, so the claimed exact conversion fails. -/
theorem solana_C2_counterexample :
    GetBalanceTool.execute "addr" (.ok (.obj [("result", .obj [("value", .num 1)])]))
      ≠ .dumps (.obj [("address", .str "addr"),
                      ("balance_sol", .num (1/1000000000)),
                      ("balance_lamports", .num 1)]) := by
  have hm : mantissaExp 1 1000000000 = (4835703278458517, -82) := by decide
  have ht : Int.toNat 82 = 82 := rfl
  have h1 : lamportsToSol 1
      = (4835703278458517 : ℚ) / 4835703278458516698824704 := by
    rw [lamportsToSol, divRound53, hm, pow2z]
    norm_num [ht]
  have h2 : lamportsToSol 1 < 2^1024 := by
    rw [h1]; norm_num
  have h3 := pyDivBillion_nat 1 h2
  rw [Nat.cast_one] at h3
  have hex : GetBalanceTool.execute "addr"
        (.ok (.obj [("result", .obj [("value", .num 1)])]))
      = .dumps (.obj [("address", .str "addr"),
                      ("balance_sol", .num (lamportsToSol 1)),
                      ("balance_lamports", .num 1)]) := by
    have e1 : pyContains (.obj [("result", .obj [("value", Json.num 1)])]) "result"
        = .ok true := rfl
    have e2 : pySubscript (.obj [("result", .obj [("value", Json.num 1)])]) "result"
        = .ok (.obj [("value", Json.num 1)]) := rfl
    have e3 : pySubscript (.obj [("value", Json.num 1)]) "value"
        = .ok (.num 1) := rfl
    simp only [GetBalanceTool.execute, balanceBody, e1, e2, e3, h3,
               except_ok_bind, if_true]
    rfl
  rw [hex, h1]
  norm_num

/-- C2 (amended): for every successful getBalance response with an
integer lamport count L (below the float overflow threshold), the tool
returns the correctly rounded binary64 value of L / 1_000_000_000 as
the SOL amount, exact whenever that quotient is representable, as in
the 1_500_000_000 to 1.5 example, together with the original lamport
count. -/
theorem solana_C2_balance_conversion (a : String)
    (fs rfs : List (String × Json)) (L : ℕ)
    (hres : jsonGet fs "result" = some (.obj rfs))
    (hval : jsonGet rfs "value" = some (.num (L : ℚ)))
    (hrange : lamportsToSol L < 2^1024) :
    GetBalanceTool.execute a (.ok (.obj fs))
      = .dumps (.obj [("address", .str a),
                      ("balance_sol", .num (lamportsToSol L)),
                      ("balance_lamports", .num (L : ℚ))])
    ∧ lamportsToSol 1500000000 = 3/2 := by
  refine ⟨?_, lamportsToSol_example⟩
  have e1 : pyContains (.obj fs) "result" = .ok true := by
    simp [pyContains, hres]
  have e2 : pySubscript (.obj fs) "result" = .ok (.obj rfs) := by
    simp [pySubscript, hres]
  have e3 : pySubscript (.obj rfs) "value" = .ok (.num (L : ℚ)) := by
    simp [pySubscript, hval]
  have hdiv := pyDivBillion_nat L hrange
  simp only [GetBalanceTool.execute, balanceBody, e1, e2, e3, hdiv,
             except_ok_bind, if_true]
  rfl

/-- C2 witness: instance of the amended conversion at L equal to
1_500_000_000, whose binary64 quotient is exactly 1.5. -/
theorem solana_C2_witness :
    GetBalanceTool.execute "a"
        (.ok (.obj [("result", .obj [("value", .num ((1500000000 : ℕ) : ℚ))])]))
      = .dumps (.obj [("address", .str "a"),
                      ("balance_sol", .num (lamportsToSol 1500000000)),
                      ("balance_lamports", .num ((1500000000 : ℕ) : ℚ))])
    ∧ lamportsToSol 1500000000 = 3/2 :=
  solana_C2_balance_conversion "a" _ _ 1500000000 rfl rfl
    (by rw [lamportsToSol_example]; norm_num)

/-- C6 counterexample: a 200 response whose body is not valid JSON
makes the verification tool return the two-field verified-false record
rather than the fixed eight-field set, so the unconditional reshaping
claim fails. -/
theorem solana_C6_counterexample :
    dumpedKeys (VerifyAgentTool.execute "w"
        (.badBody "Expecting value: line 1 column 1 (char 0)"))
      ≠ some ["verified", "name", "wallet", "pda", "isVerified",
              "reputationScore", "description", "profile"] := by
  simp [VerifyAgentTool.execute, dumpedKeys]

/-- C6 (amended): on a 200 response, profile lookup and trust lookup
return the upstream body unchanged, while verification reshapes every
body that parses as a JSON object into the fixed eight-field set with
verified true (a 200 body that fails to parse as an object instead
yields the verified-false error shape). -/
theorem solana_C6_passthrough_vs_reshape (w body : String)
    (fields : List (String × Json)) :
    LookupAgentTool.execute w (.ok body) = .raw body
    ∧ GetTrustScoreTool.execute w (.ok body) = .raw body
    ∧ dumpedKeys (VerifyAgentTool.execute w (.ok (.obj fields)))
      = some ["verified", "name", "wallet", "pda", "isVerified",
              "reputationScore", "description", "profile"]
    ∧ (∃ rest, VerifyAgentTool.execute w (.ok (.obj fields))
        = .dumps (.obj (("verified", .bool true) :: rest))) :=
  ⟨rfl, rfl, rfl, ⟨_, rfl⟩⟩

/-- C7 counterexample: a response carrying both a result and an error
field takes the result branch, so no error key is returned and the
claimed verbatim error propagation fails. -/
theorem solana_C7_counterexample :
    hasErrorField (GetBalanceTool.execute "a"
        (.ok (.obj [("result", .obj [("value", .num 7)]),
                    ("error", .str "boom")]))) = false := by
  have hm : mantissaExp 7 1000000000 = (8462480737302404, -80) := by decide
  have ht : Int.toNat 80 = 80 := rfl
  have h1 : lamportsToSol 7
      = (8462480737302404 : ℚ) / 1208925819614629174706176 := by
    rw [lamportsToSol, divRound53, hm, pow2z]
    norm_num [ht]
  have h2 : lamportsToSol 7 < 2^1024 := by
    rw [h1]; norm_num
  have h3 := pyDivBillion_nat 7 h2
  rw [show ((7 : ℕ) : ℚ) = (7 : ℚ) by norm_num] at h3
  have e1 : pyContains (.obj [("result", .obj [("value", Json.num 7)]),
      ("error", .str "boom")]) "result" = .ok true := rfl
  have e2 : pySubscript (.obj [("result", .obj [("value", Json.num 7)]),
      ("error", .str "boom")]) "result" = .ok (.obj [("value", Json.num 7)]) := rfl
  have e3 : pySubscript (.obj [("value", Json.num 7)]) "value"
      = .ok (.num 7) := rfl
  simp only [GetBalanceTool.execute, balanceBody, e1, e2, e3, h3,
             except_ok_bind, if_true]
  rfl

/-- C7 (amended): on a response that parses as a JSON object with an
error field and no result field, the balance tool returns the error
value verbatim under an error key; on any transport or parsing fault it
returns the message under an error key; and the trust tool maps every
fault, HTTP 404 included, to the same generic error shape. -/
theorem solana_C7_generic_errors (a w m : String) (code : ℕ)
    (fields : List (String × Json)) (v : Json)
    (hres : jsonGet fields "result" = none)
    (herr : jsonGet fields "error" = some v) :
    GetBalanceTool.execute a (.ok (.obj fields)) = .dumps (.obj [("error", v)])
    ∧ GetBalanceTool.execute a (.exn m) = .dumps (.obj [("error", .str m)])
    ∧ GetBalanceTool.execute a (.badBody m) = .dumps (.obj [("error", .str m)])
    ∧ GetTrustScoreTool.execute w (.httpError code m)
      = .dumps (.obj [("error", .str m)])
    ∧ GetTrustScoreTool.execute w (.exn m) = .dumps (.obj [("error", .str m)]) := by
  refine ⟨?_, rfl, rfl, rfl, rfl⟩
  have e1 : pyContains (.obj fields) "result" = .ok false := by
    simp [pyContains, hres]
  have e4 : pyDictGet (.obj fields) "error" (.str "Unknown error") = .ok v := by
    simp [pyDictGet, herr]
  simp only [GetBalanceTool.execute, balanceBody, e1, e4, except_ok_bind,
             Bool.false_eq_true, if_false]
  rfl

/-- C7 witness: instance with an RPC error object and no result
field. -/
theorem solana_C7_witness :
    GetBalanceTool.execute "a" (.ok (.obj [("error", .str "rpc failed")]))
      = .dumps (.obj [("error", .str "rpc failed")])
    ∧ GetBalanceTool.execute "a" (.exn "timed out")
      = .dumps (.obj [("error", .str "timed out")])
    ∧ GetBalanceTool.execute "a" (.badBody "timed out")
      = .dumps (.obj [("error", .str "timed out")])
    ∧ GetTrustScoreTool.execute "w" (.httpError 404 "timed out")
      = .dumps (.obj [("error", .str "timed out")])
    ∧ GetTrustScoreTool.execute "w" (.exn "timed out")
      = .dumps (.obj [("error", .str "timed out")]) :=
  solana_C7_generic_errors "a" "w" "timed out" 404
    [("error", .str "rpc failed")] (.str "rpc failed") rfl rfl

/-- C9 counterexample: the response parsing to the empty JSON array has
neither a result field nor an error field, yet the tool does not return
the Unknown error record: the membership test is false on the empty
list, and the list then has no get attribute, so the AttributeError
message is returned instead.  The claim therefore fails for a response
that parses as JSON but not as a JSON object. -/
theorem solana_C9_counterexample :
    GetBalanceTool.execute "a" (.ok (.arr []))
      = .dumps (.obj [("error",
          .str "\x27list\x27 object has no attribute \x27get\x27")])
    ∧ GetBalanceTool.execute "a" (.ok (.arr []))
      ≠ .dumps (.obj [("error", .str "Unknown error")]) := by
  refine ⟨rfl, ?_⟩
  simp [GetBalanceTool.execute, balanceBody, pyContains, pyDictGet,
        except_ok_bind, except_error_bind]

/-- C9 (amended): on a response that parses as a JSON object with
neither a result field nor an error field, the balance tool returns
exactly the Unknown error record. -/
theorem solana_C9_unknown_error (a : String) (fields : List (String × Json))
    (hres : jsonGet fields "result" = none)
    (herr : jsonGet fields "error" = none) :
    GetBalanceTool.execute a (.ok (.obj fields))
      = .dumps (.obj [("error", .str "Unknown error")]) := by
  have e1 : pyContains (.obj fields) "result" = .ok false := by
    simp [pyContains, hres]
  have e4 : pyDictGet (.obj fields) "error" (.str "Unknown error")
      = .ok (.str "Unknown error") := by
    simp [pyDictGet, herr]
  simp only [GetBalanceTool.execute, balanceBody, e1, e4, except_ok_bind,
             Bool.false_eq_true, if_false]
  rfl

/-- C9 witness: instance at the empty JSON object. -/
theorem solana_C9_witness :
    GetBalanceTool.execute "a" (.ok (.obj []))
      = .dumps (.obj [("error", .str "Unknown error")]) :=
  solana_C9_unknown_error "a" [] rfl rfl
